import Mathlib

/-!
# Verification of `backup_github_repos.py`

A shallow embedding of the single source file `backup_github_repos.py`
(class `GithubBackup` plus its `__main__` block), together with proofs of
the behavioural properties claimed by the specification.

Modelling conventions:
* A repository descriptor (`Repo`) carries exactly the attributes the
  script reads: `name`, `clone_url`, `ssh_url`, `private`, `updated_at`
  (timestamps as naturals).
* External effects are recorded in an event trace (`Event`): subprocess
  invocations, `os.makedirs` calls, `print` output, log records and
  `time.sleep` calls.
* The environment (`Env`) is an oracle answering `os.path.exists` queries
  and giving the outcome of each subprocess invocation: an exit code, or a
  spawn-level failure (the `OSError` family that `subprocess.run` raises
  when the command cannot be executed at all).
* Python control flow: `sys.exit(n)` and an uncaught exception are the two
  abnormal process terminations (`PyResult.exit` / `PyResult.exn`); an
  exception raised inside a function is an `Except.error` until caught.
-/

/-- The five attributes of a PyGithub repository object that the script
reads.  `private` is `repo.private`, `updated_at` is the last-update
timestamp used as sort key. -/
structure Repo where
  name : String
  clone_url : String
  ssh_url : String
  «private» : Bool
  updated_at : Nat
deriving DecidableEq

/-- The four subprocess command shapes the script builds.  `GitCmd.args`
gives the literal argv list of each, exactly as in the source. -/
inductive GitCmd
  | fetch (dir : String)
  | merge (dir : String)
  | fsck (dir : String)
  | clone (url : String) (dir : String)
deriving DecidableEq

/-- The argv list each command denotes, exactly the lists passed to
`subprocess.run` in the source (lines 36-41, 56-67, 75-89). -/
def GitCmd.args : GitCmd → List String
  | .fetch d => ["git", "-C", d, "fetch", "--all", "--prune"]
  | .merge d => ["git", "-C", d, "merge"]
  | .fsck d => ["git", "-C", d, "fsck"]
  | .clone url d =>
      ["git", "lfs", "clone", "--recursive", "-c", "submodule.recurse=true", url, d]

/-- Outcome of attempting one subprocess invocation: the child ran and
exited with a code, or spawning failed (`OSError`, e.g. executable not
found). -/
inductive RunOutcome
  | exit (code : Nat)
  | spawnError
deriving DecidableEq

/-- The environment oracle: which paths `os.path.exists` reports, and the
outcome of each subprocess invocation. -/
structure Env where
  pathExists : String → Bool
  runOutcome : GitCmd → RunOutcome

/-- The Python exceptions that can cross function boundaries here:
`subprocess.CalledProcessError` (non-zero exit under `check=True`), the
`OSError` family from a failed spawn, the `AttributeError` produced by
evaluating `Github.GithubException` (the class `Github` has no such
attribute), and `ValueError` from `int()` on a bad literal. -/
inductive PyErr
  | calledProcessError (cmd : GitCmd) (code : Nat)
  | osError
  | attributeError
  | valueError
deriving DecidableEq

/-- One observable external effect. -/
inductive Event
  | run (cmd : GitCmd)
  | makedirs (dir : String)
  | print (msg : String)
  | logInfo (msg : String)
  | logError (msg : String)
  | sleep (seconds : Int)
deriving DecidableEq

/-- How a whole program fragment ends: normal value, `sys.exit code`, or an
uncaught exception propagating out. -/
inductive PyResult (α : Type)
  | ok (a : α)
  | exit (code : Nat)
  | exn (e : PyErr)
deriving DecidableEq

/-- Process exit status: CPython exits with status 1 when an uncaught
exception terminates the interpreter, and with `code` on `sys.exit(code)`. -/
def exitCodeOf : PyResult Unit → Nat
  | .ok _ => 0
  | .exit c => c
  | .exn _ => 1

/-- Model of `subprocess.run(cmd, check=True, capture_output=True, text=True)`:
emits the invocation, returns the zero exit code, raises
`CalledProcessError` on a non-zero exit, raises an `OSError` if the spawn
itself fails. -/
def subprocessRun (env : Env) (cmd : GitCmd) : List Event × Except PyErr Nat :=
  match env.runOutcome cmd with
  | .exit c =>
      if c = 0 then ([Event.run cmd], Except.ok 0)
      else ([Event.run cmd], Except.error (PyErr.calledProcessError cmd c))
  | .spawnError => ([Event.run cmd], Except.error PyErr.osError)

/-- Concatenation of `a` and `b` with the path separator: `os.path.join(a, b)` for
a relative non-empty `b` and separator-free `a`, the only use here. -/
def pathJoin (a b : String) : String := a ++ "/" ++ b

/-- Prefix test on character lists, used to model Python's substring
operator. -/
def begWith : List Char → List Char → Bool
  | [], _ => true
  | _ :: _, [] => false
  | a :: as, b :: bs => a == b && begWith as bs

/-- Contiguous-sublist test on character lists. -/
def hasSub (needle : List Char) : List Char → Bool
  | [] => needle.isEmpty
  | c :: cs => begWith needle (c :: cs) || hasSub needle cs

/-- Python's `needle in hay` on strings: contiguous substring test. -/
def strIn (needle hay : String) : Bool := hasSub needle.data hay.data

/-- Source line 49: `repo.ssh_url if "ssh://" in repo.ssh_url else
repo.clone_url`.  A function of the descriptor alone — no per-call
configuration enters the choice. -/
def repo_url (repo : Repo) : String :=
  if strIn "ssh://" repo.ssh_url then repo.ssh_url else repo.clone_url

/-- Embedding of `verify_repository` (source lines 34-46): run `git -C target_dir fsck`
with `check=True`; on exit 0 log success and return `True`; on
`CalledProcessError` log failure and return `False`.  Only
`CalledProcessError` is caught — any other exception propagates. -/
def verify_repository (env : Env) (target_dir : String) :
    List Event × Except PyErr Bool :=
  match subprocessRun env (GitCmd.fsck target_dir) with
  | (t, .ok _) =>
      (t ++ [Event.logInfo ("Backup verification for " ++ target_dir ++ " successful")],
        Except.ok true)
  | (t, .error (.calledProcessError _ _)) =>
      (t ++ [Event.logError ("Backup verification for " ++ target_dir ++ " failed")],
        Except.ok false)
  | (t, .error e) => (t, Except.error e)

/-- Embedding of `clone_or_update_repository` (source lines 48-94).
If the target directory exists: log, fetch, then merge, catching
`CalledProcessError` from either (logged as update failure), then `return`
— the verification step is *not* reached on this path (line 71).
Otherwise: log, `git lfs clone` catching `CalledProcessError` (logged as
clone failure), then `verify_repository(target_dir)` (line 94) whose
boolean result is discarded.  Exceptions other than `CalledProcessError`
propagate. -/
def clone_or_update_repository (env : Env) (repo : Repo) (backup_dir : String) :
    List Event × Except PyErr Unit :=
  let repo_name := repo.name
  let target_dir := pathJoin backup_dir repo_name
  if env.pathExists target_dir then
    let t0 : List Event := [Event.logInfo ("Updating " ++ repo_name ++ " in " ++ backup_dir)]
    match subprocessRun env (GitCmd.fetch target_dir) with
    | (t1, .ok _) =>
        (match subprocessRun env (GitCmd.merge target_dir) with
        | (t2, .ok _) =>
            (t0 ++ t1 ++ t2 ++
              [Event.logInfo ("Successfully updated " ++ repo_name ++ " in " ++ backup_dir)],
              Except.ok ())
        | (t2, .error (.calledProcessError _ _)) =>
            (t0 ++ t1 ++ t2 ++
              [Event.logError ("Failed to update " ++ repo_name ++ " in " ++ backup_dir)],
              Except.ok ())
        | (t2, .error e) => (t0 ++ t1 ++ t2, Except.error e))
    | (t1, .error (.calledProcessError _ _)) =>
        (t0 ++ t1 ++
          [Event.logError ("Failed to update " ++ repo_name ++ " in " ++ backup_dir)],
          Except.ok ())
    | (t1, .error e) => (t0 ++ t1, Except.error e)
  else
    let t0 : List Event := [Event.logInfo ("Cloning " ++ repo_name ++ " to " ++ backup_dir)]
    match subprocessRun env (GitCmd.clone (repo_url repo) target_dir) with
    | (t1, .ok _) =>
        let tc := t0 ++ t1 ++
          [Event.logInfo ("Successfully cloned " ++ repo_name ++ " to " ++ backup_dir)]
        (match verify_repository env target_dir with
        | (t2, .ok _) => (tc ++ t2, Except.ok ())
        | (t2, .error e) => (tc ++ t2, Except.error e))
    | (t1, .error (.calledProcessError _ _)) =>
        let tc := t0 ++ t1 ++
          [Event.logError ("Failed to clone " ++ repo_name ++ " to " ++ backup_dir)]
        (match verify_repository env target_dir with
        | (t2, .ok _) => (tc ++ t2, Except.ok ())
        | (t2, .error e) => (tc ++ t2, Except.error e))
    | (t1, .error e) => (t0 ++ t1, Except.error e)

/-- How the repository-listing call can turn out: a list of descriptors, a
`requests` transport failure (`RequestException`), or a PyGithub API
failure (`GithubException`, e.g. bad credentials). -/
inductive ListingOutcome
  | ok (repos : List Repo)
  | requestException
  | githubException

/-- Stable descending insertion: place `r` after every element with a
strictly greater key and before every element with an equal or smaller key,
keeping the relative order of the rest. -/
def insertDesc (r : Repo) : List Repo → List Repo
  | [] => [r]
  | x :: xs =>
      if r.updated_at < x.updated_at then x :: insertDesc r xs else r :: x :: xs

/-- Model of `sorted(repos, key=lambda r: r.updated_at, reverse=True)`: Python's
stable sort with all comparisons reversed, i.e. the stable descending sort
by `updated_at` — ties keep the input order.  A stable sort's output is
determined uniquely by being a permutation, descending, and
timestamp-filter-preserving (all proved below), so this structurally
recursive insertion sort is the same function as Python's `sorted`. -/
def pySortedByUpdatedDesc : List Repo → List Repo
  | [] => []
  | r :: rs => insertDesc r (pySortedByUpdatedDesc rs)

/-- Embedding of `get_repositories` (source lines 17-26).  On success, the sorted list.
On `RequestException`: log and `sys.exit(1)`.  On a PyGithub
`GithubException`: the handler clause `except Github.GithubException`
evaluates the attribute `GithubException` on the *class* `Github`, which
does not exist, so an `AttributeError` is raised and propagates uncaught. -/
def get_repositories (listing : ListingOutcome) : List Event × PyResult (List Repo) :=
  match listing with
  | .ok repos => ([], PyResult.ok (pySortedByUpdatedDesc repos))
  | .requestException => ([Event.logError "Network error"], PyResult.exit 1)
  | .githubException => ([], PyResult.exn PyErr.attributeError)

/-- Embedding of `display_repositories` (source lines 28-32): print a header, then one
line per repository in the given order. -/
def display_repositories (repos : List Repo) : List Event :=
  Event.print "Repositories:" ::
    repos.map (fun repo =>
      let repo_type := if repo.private then "Private" else "Public"
      Event.print (repo_type ++ ": " ++ repo.name ++ " (Last updated: "
        ++ toString repo.updated_at ++ ")"))

/-- Source line 106: `"public_repos" if repo.private is False else
"private_repos"`. -/
def backupDirOf (repo : Repo) : String :=
  if repo.private = false then "public_repos" else "private_repos"

/-- The `for repo in repos:` loop of `backup_repositories` (source lines
105-110): per repository, `os.makedirs(backup_dir, exist_ok=True)`, then
`clone_or_update_repository`, then `time.sleep` if the rate limit is
positive.  An exception escaping the body aborts the loop (uncaught). -/
def backupLoop (env : Env) (rate_limit_seconds : Int) :
    List Repo → List Event × PyResult Unit
  | [] => ([], PyResult.ok ())
  | repo :: rest =>
    let backup_dir := backupDirOf repo
    let t0 : List Event := [Event.makedirs backup_dir]
    match clone_or_update_repository env repo backup_dir with
    | (t1, .error e) => (t0 ++ t1, PyResult.exn e)
    | (t1, .ok _) =>
        let ts : List Event :=
          if rate_limit_seconds > 0 then [Event.sleep rate_limit_seconds] else []
        match backupLoop env rate_limit_seconds rest with
        | (t2, r2) => (t0 ++ t1 ++ ts ++ t2, r2)

/-- Python's `str.lower()`, modelled characterwise (ASCII case folding,
which is all the comparison against `"yes"` can observe). -/
def strLower (s : String) : String := String.mk (s.data.map Char.toLower)

/-- The confirmation prompt text (source line 100). -/
def promptMsg : String := "Do you want to backup these repositories? (yes/no) "

/-- Embedding of `backup_repositories` (source lines 96-110): list, display, prompt;
any answer other than case-insensitive `"yes"` prints `"Backup canceled."`
and returns; otherwise run the per-repository loop. -/
def backup_repositories (env : Env) (rate_limit_seconds : Int)
    (listing : ListingOutcome) (confirm : String) : List Event × PyResult Unit :=
  match get_repositories listing with
  | (t, .exit c) => (t, PyResult.exit c)
  | (t, .exn e) => (t, PyResult.exn e)
  | (t, .ok repos) =>
    let td := display_repositories repos
    let tp : List Event := [Event.print promptMsg]
    if strLower confirm ≠ "yes" then
      (t ++ td ++ tp ++ [Event.print "Backup canceled."], PyResult.ok ())
    else
      match backupLoop env rate_limit_seconds repos with
      | (tl, r) => (t ++ td ++ tp ++ tl, r)

/-- The usage message (source line 114). -/
def usageMsg : String :=
  "Usage: python backup_github_repos.py <GitHub Personal Access Token> [rate_limit_seconds]"

/-- The `__main__` block (source lines 112-121): with fewer than two argv
entries, print usage and `sys.exit(1)`; otherwise parse the optional rate
limit (`int(sys.argv[2])`, raising `ValueError` on a bad literal; the
source's default literal is the float `1.0`, modelled as `1` since it is
only compared with `0` and slept on) and run the backup. -/
def main_model (env : Env) (argv : List String) (listing : ListingOutcome)
    (confirm : String) : List Event × PyResult Unit :=
  if argv.length < 2 then
    ([Event.print usageMsg], PyResult.exit 1)
  else
    match argv.get? 2 with
    | some s =>
        match s.toInt? with
        | some n => backup_repositories env n listing confirm
        | none => ([], PyResult.exn PyErr.valueError)
    | none => backup_repositories env 1 listing confirm

/-! ## Trace observation helpers -/

/-- Is this event a clone invocation? -/
def isCloneEvt : Event → Bool
  | .run (.clone _ _) => true
  | _ => false

/-- Is this event a fetch invocation? -/
def isFetchEvt : Event → Bool
  | .run (.fetch _) => true
  | _ => false

/-- Is this event a merge invocation? -/
def isMergeEvt : Event → Bool
  | .run (.merge _) => true
  | _ => false

/-- Is this event a `git fsck` invocation (the verification step)? -/
def isFsckEvt : Event → Bool
  | .run (.fsck _) => true
  | _ => false

/-- Is this event any subprocess invocation? -/
def isRunEvt : Event → Bool
  | .run _ => true
  | _ => false

/-- Is this event a directory creation? -/
def isMakedirsEvt : Event → Bool
  | .makedirs _ => true
  | _ => false

/-- The directory a git command operates on (`-C` argument, or the clone
destination). -/
def GitCmd.dir : GitCmd → String
  | .fetch d => d
  | .merge d => d
  | .fsck d => d
  | .clone _ d => d

/-- The environment never fails at spawn level: every subprocess outcome
is an exit code. -/
def Env.noSpawnErr (env : Env) : Prop :=
  ∀ cmd, env.runOutcome cmd ≠ RunOutcome.spawnError

/-! ## Concrete scenarios

Small closed instances used to witness hypotheses and to exhibit
counterexamples. -/

/-- A private repository whose SSH URL carries the `ssh://` scheme marker. -/
def repoAlpha : Repo :=
  ⟨"alpha", "https://github.com/u/alpha.git", "ssh://git@github.com/u/alpha.git", true, 2⟩

/-- A public repository whose SSH URL is in scp-like syntax (no `ssh://`
marker). -/
def repoBeta : Repo :=
  ⟨"beta", "https://github.com/u/beta.git", "git@github.com:u/beta.git", false, 1⟩

/-- No target directory exists; every subprocess exits 0. -/
def envAllOk : Env := ⟨fun _ => false, fun _ => RunOutcome.exit 0⟩

/-- Every target directory exists; every subprocess exits 0. -/
def envExistsOk : Env := ⟨fun _ => true, fun _ => RunOutcome.exit 0⟩

/-- Every target directory exists; `fetch` exits 1, everything else 0. -/
def envFetchFails : Env :=
  ⟨fun _ => true, fun cmd => match cmd with
    | .fetch _ => RunOutcome.exit 1
    | _ => RunOutcome.exit 0⟩

/-- No target directory exists; `clone` exits 1, everything else 0. -/
def envCloneFails : Env :=
  ⟨fun _ => false, fun cmd => match cmd with
    | .clone _ _ => RunOutcome.exit 1
    | _ => RunOutcome.exit 0⟩

/-- No target directory exists; `fsck` exits 1, everything else 0. -/
def envFsckFails : Env :=
  ⟨fun _ => false, fun cmd => match cmd with
    | .fsck _ => RunOutcome.exit 1
    | _ => RunOutcome.exit 0⟩

/-- No target directory exists; spawning the `fsck` check tool itself
fails (`OSError`), everything else exits 0. -/
def envFsckSpawnErr : Env :=
  ⟨fun _ => false, fun cmd => match cmd with
    | .fsck _ => RunOutcome.spawnError
    | _ => RunOutcome.exit 0⟩

/-! ## Execution equations

One equation per control-flow case of the embedded functions, each giving
the exact trace and result.  All claim proofs are case analyses over these.
-/

theorem subprocessRun_exit_zero (env : Env) (cmd : GitCmd)
    (h : env.runOutcome cmd = RunOutcome.exit 0) :
    subprocessRun env cmd = ([Event.run cmd], Except.ok 0) := by
  simp [subprocessRun, h]

theorem subprocessRun_exit_ne (env : Env) (cmd : GitCmd) (c : Nat)
    (h : env.runOutcome cmd = RunOutcome.exit c) (hc : c ≠ 0) :
    subprocessRun env cmd
      = ([Event.run cmd], Except.error (PyErr.calledProcessError cmd c)) := by
  simp [subprocessRun, h, hc]

theorem subprocessRun_spawn (env : Env) (cmd : GitCmd)
    (h : env.runOutcome cmd = RunOutcome.spawnError) :
    subprocessRun env cmd = ([Event.run cmd], Except.error PyErr.osError) := by
  simp [subprocessRun, h]

theorem verify_eq_of_exit_zero (env : Env) (d : String)
    (h : env.runOutcome (GitCmd.fsck d) = RunOutcome.exit 0) :
    verify_repository env d
      = ([Event.run (GitCmd.fsck d),
          Event.logInfo ("Backup verification for " ++ d ++ " successful")],
         Except.ok true) := by
  simp [verify_repository, subprocessRun_exit_zero _ _ h]

theorem verify_eq_of_exit_ne (env : Env) (d : String) (c : Nat)
    (h : env.runOutcome (GitCmd.fsck d) = RunOutcome.exit c) (hc : c ≠ 0) :
    verify_repository env d
      = ([Event.run (GitCmd.fsck d),
          Event.logError ("Backup verification for " ++ d ++ " failed")],
         Except.ok false) := by
  simp [verify_repository, subprocessRun_exit_ne _ _ _ h hc]

theorem verify_eq_of_spawn (env : Env) (d : String)
    (h : env.runOutcome (GitCmd.fsck d) = RunOutcome.spawnError) :
    verify_repository env d
      = ([Event.run (GitCmd.fsck d)], Except.error PyErr.osError) := by
  simp [verify_repository, subprocessRun_spawn _ _ h]

theorem cou_update_eq_of_ok_ok (env : Env) (repo : Repo) (bd : String)
    (hp : env.pathExists (pathJoin bd repo.name) = true)
    (h1 : env.runOutcome (GitCmd.fetch (pathJoin bd repo.name)) = RunOutcome.exit 0)
    (h2 : env.runOutcome (GitCmd.merge (pathJoin bd repo.name)) = RunOutcome.exit 0) :
    clone_or_update_repository env repo bd
      = ([Event.logInfo ("Updating " ++ repo.name ++ " in " ++ bd),
          Event.run (GitCmd.fetch (pathJoin bd repo.name)),
          Event.run (GitCmd.merge (pathJoin bd repo.name)),
          Event.logInfo ("Successfully updated " ++ repo.name ++ " in " ++ bd)],
         Except.ok ()) := by
  simp [clone_or_update_repository, hp, subprocessRun_exit_zero _ _ h1,
    subprocessRun_exit_zero _ _ h2]

theorem cou_update_eq_of_ok_ne (env : Env) (repo : Repo) (bd : String) (c : Nat)
    (hp : env.pathExists (pathJoin bd repo.name) = true)
    (h1 : env.runOutcome (GitCmd.fetch (pathJoin bd repo.name)) = RunOutcome.exit 0)
    (h2 : env.runOutcome (GitCmd.merge (pathJoin bd repo.name)) = RunOutcome.exit c)
    (hc : c ≠ 0) :
    clone_or_update_repository env repo bd
      = ([Event.logInfo ("Updating " ++ repo.name ++ " in " ++ bd),
          Event.run (GitCmd.fetch (pathJoin bd repo.name)),
          Event.run (GitCmd.merge (pathJoin bd repo.name)),
          Event.logError ("Failed to update " ++ repo.name ++ " in " ++ bd)],
         Except.ok ()) := by
  simp [clone_or_update_repository, hp, subprocessRun_exit_zero _ _ h1,
    subprocessRun_exit_ne _ _ _ h2 hc]

theorem cou_update_eq_of_ok_spawn (env : Env) (repo : Repo) (bd : String)
    (hp : env.pathExists (pathJoin bd repo.name) = true)
    (h1 : env.runOutcome (GitCmd.fetch (pathJoin bd repo.name)) = RunOutcome.exit 0)
    (h2 : env.runOutcome (GitCmd.merge (pathJoin bd repo.name)) = RunOutcome.spawnError) :
    clone_or_update_repository env repo bd
      = ([Event.logInfo ("Updating " ++ repo.name ++ " in " ++ bd),
          Event.run (GitCmd.fetch (pathJoin bd repo.name)),
          Event.run (GitCmd.merge (pathJoin bd repo.name))],
         Except.error PyErr.osError) := by
  simp [clone_or_update_repository, hp, subprocessRun_exit_zero _ _ h1,
    subprocessRun_spawn _ _ h2]

theorem cou_update_eq_of_ne (env : Env) (repo : Repo) (bd : String) (c : Nat)
    (hp : env.pathExists (pathJoin bd repo.name) = true)
    (h1 : env.runOutcome (GitCmd.fetch (pathJoin bd repo.name)) = RunOutcome.exit c)
    (hc : c ≠ 0) :
    clone_or_update_repository env repo bd
      = ([Event.logInfo ("Updating " ++ repo.name ++ " in " ++ bd),
          Event.run (GitCmd.fetch (pathJoin bd repo.name)),
          Event.logError ("Failed to update " ++ repo.name ++ " in " ++ bd)],
         Except.ok ()) := by
  simp [clone_or_update_repository, hp, subprocessRun_exit_ne _ _ _ h1 hc]

theorem cou_update_eq_of_spawn (env : Env) (repo : Repo) (bd : String)
    (hp : env.pathExists (pathJoin bd repo.name) = true)
    (h1 : env.runOutcome (GitCmd.fetch (pathJoin bd repo.name)) = RunOutcome.spawnError) :
    clone_or_update_repository env repo bd
      = ([Event.logInfo ("Updating " ++ repo.name ++ " in " ++ bd),
          Event.run (GitCmd.fetch (pathJoin bd repo.name))],
         Except.error PyErr.osError) := by
  simp [clone_or_update_repository, hp, subprocessRun_spawn _ _ h1]

theorem cou_clone_eq_of_ok (env : Env) (repo : Repo) (bd : String)
    (hp : env.pathExists (pathJoin bd repo.name) = false)
    (h1 : env.runOutcome (GitCmd.clone (repo_url repo) (pathJoin bd repo.name))
      = RunOutcome.exit 0) :
    clone_or_update_repository env repo bd
      = ([Event.logInfo ("Cloning " ++ repo.name ++ " to " ++ bd),
          Event.run (GitCmd.clone (repo_url repo) (pathJoin bd repo.name)),
          Event.logInfo ("Successfully cloned " ++ repo.name ++ " to " ++ bd)]
          ++ (verify_repository env (pathJoin bd repo.name)).1,
         match (verify_repository env (pathJoin bd repo.name)).2 with
         | .ok _ => Except.ok ()
         | .error e => Except.error e) := by
  rcases hv : verify_repository env (pathJoin bd repo.name) with ⟨tv, rv⟩
  rcases rv with b | e <;>
    simp [clone_or_update_repository, hp, subprocessRun_exit_zero _ _ h1, hv]

theorem cou_clone_eq_of_ne (env : Env) (repo : Repo) (bd : String) (c : Nat)
    (hp : env.pathExists (pathJoin bd repo.name) = false)
    (h1 : env.runOutcome (GitCmd.clone (repo_url repo) (pathJoin bd repo.name))
      = RunOutcome.exit c) (hc : c ≠ 0) :
    clone_or_update_repository env repo bd
      = ([Event.logInfo ("Cloning " ++ repo.name ++ " to " ++ bd),
          Event.run (GitCmd.clone (repo_url repo) (pathJoin bd repo.name)),
          Event.logError ("Failed to clone " ++ repo.name ++ " to " ++ bd)]
          ++ (verify_repository env (pathJoin bd repo.name)).1,
         match (verify_repository env (pathJoin bd repo.name)).2 with
         | .ok _ => Except.ok ()
         | .error e => Except.error e) := by
  rcases hv : verify_repository env (pathJoin bd repo.name) with ⟨tv, rv⟩
  rcases rv with b | e <;>
    simp [clone_or_update_repository, hp, subprocessRun_exit_ne _ _ _ h1 hc, hv]

theorem cou_clone_eq_of_spawn (env : Env) (repo : Repo) (bd : String)
    (hp : env.pathExists (pathJoin bd repo.name) = false)
    (h1 : env.runOutcome (GitCmd.clone (repo_url repo) (pathJoin bd repo.name))
      = RunOutcome.spawnError) :
    clone_or_update_repository env repo bd
      = ([Event.logInfo ("Cloning " ++ repo.name ++ " to " ++ bd),
          Event.run (GitCmd.clone (repo_url repo) (pathJoin bd repo.name))],
         Except.error PyErr.osError) := by
  simp [clone_or_update_repository, hp, subprocessRun_spawn _ _ h1]

theorem cou_snd_ok_of_noSpawn (env : Env) (hns : env.noSpawnErr)
    (repo : Repo) (bd : String) :
    (clone_or_update_repository env repo bd).2 = Except.ok () := by
  by_cases hp : env.pathExists (pathJoin bd repo.name) = true
  · rcases h1 : env.runOutcome (GitCmd.fetch (pathJoin bd repo.name)) with c | _
    · by_cases hc : c = 0
      · subst hc
        rcases h2 : env.runOutcome (GitCmd.merge (pathJoin bd repo.name)) with c2 | _
        · by_cases hc2 : c2 = 0
          · subst hc2
            rw [cou_update_eq_of_ok_ok env repo bd hp h1 h2]
          · rw [cou_update_eq_of_ok_ne env repo bd c2 hp h1 h2 hc2]
        · exact absurd h2 (hns _)
      · rw [cou_update_eq_of_ne env repo bd c hp h1 hc]
    · exact absurd h1 (hns _)
  · rw [Bool.not_eq_true] at hp
    have hv : (verify_repository env (pathJoin bd repo.name)).2 ≠ Except.error PyErr.osError := by
      rcases h2 : env.runOutcome (GitCmd.fsck (pathJoin bd repo.name)) with c2 | _
      · by_cases hc2 : c2 = 0
        · subst hc2; rw [verify_eq_of_exit_zero env _ h2]; simp
        · rw [verify_eq_of_exit_ne env _ c2 h2 hc2]; simp
      · exact absurd h2 (hns _)
    rcases h1 : env.runOutcome (GitCmd.clone (repo_url repo) (pathJoin bd repo.name)) with c | _
    · by_cases hc : c = 0
      · subst hc
        rw [cou_clone_eq_of_ok env repo bd hp h1]
        rcases h2 : env.runOutcome (GitCmd.fsck (pathJoin bd repo.name)) with c2 | _
        · by_cases hc2 : c2 = 0
          · subst hc2; rw [verify_eq_of_exit_zero env _ h2]
          · rw [verify_eq_of_exit_ne env _ c2 h2 hc2]
        · exact absurd h2 (hns _)
      · rw [cou_clone_eq_of_ne env repo bd c hp h1 hc]
        rcases h2 : env.runOutcome (GitCmd.fsck (pathJoin bd repo.name)) with c2 | _
        · by_cases hc2 : c2 = 0
          · subst hc2; rw [verify_eq_of_exit_zero env _ h2]
          · rw [verify_eq_of_exit_ne env _ c2 h2 hc2]
        · exact absurd h2 (hns _)
    · exact absurd h1 (hns _)

theorem backupLoop_nil (env : Env) (rl : Int) :
    backupLoop env rl [] = ([], PyResult.ok ()) := rfl

theorem backupLoop_cons_of_ok (env : Env) (rl : Int) (r : Repo) (rest : List Repo)
    (h : (clone_or_update_repository env r (backupDirOf r)).2 = Except.ok ()) :
    backupLoop env rl (r :: rest)
      = (Event.makedirs (backupDirOf r) ::
          ((clone_or_update_repository env r (backupDirOf r)).1
            ++ (if rl > 0 then [Event.sleep rl] else [])
            ++ (backupLoop env rl rest).1),
         (backupLoop env rl rest).2) := by
  rcases hs : clone_or_update_repository env r (backupDirOf r) with ⟨t1, r1⟩
  rw [hs] at h
  subst h
  rcases hrest : backupLoop env rl rest with ⟨t2, r2⟩
  simp [backupLoop, hs, hrest]

theorem backupLoop_cons_of_err (env : Env) (rl : Int) (r : Repo) (rest : List Repo)
    (e : PyErr)
    (h : (clone_or_update_repository env r (backupDirOf r)).2 = Except.error e) :
    backupLoop env rl (r :: rest)
      = (Event.makedirs (backupDirOf r) ::
          (clone_or_update_repository env r (backupDirOf r)).1,
         PyResult.exn e) := by
  rcases hs : clone_or_update_repository env r (backupDirOf r) with ⟨t1, r1⟩
  rw [hs] at h
  subst h
  simp [backupLoop, hs]

/-! ## Trace-shape lemmas -/

theorem verify_filter_fsck (env : Env) (d : String) :
    (verify_repository env d).1.filter isFsckEvt = [Event.run (GitCmd.fsck d)] := by
  rcases h : env.runOutcome (GitCmd.fsck d) with c | _
  · by_cases hc : c = 0
    · subst hc; rw [verify_eq_of_exit_zero env d h]; simp [isFsckEvt]
    · rw [verify_eq_of_exit_ne env d c h hc]; simp [isFsckEvt]
  · rw [verify_eq_of_spawn env d h]; simp [isFsckEvt]

theorem verify_filter_nonfsck (env : Env) (d : String) (p : Event → Bool)
    (hrun : ∀ c, p (Event.run (GitCmd.fsck c)) = false)
    (hinfo : ∀ s, p (Event.logInfo s) = false)
    (herr : ∀ s, p (Event.logError s) = false) :
    (verify_repository env d).1.filter p = [] := by
  rcases h : env.runOutcome (GitCmd.fsck d) with c | _
  · by_cases hc : c = 0
    · subst hc; rw [verify_eq_of_exit_zero env d h]; simp [hrun, hinfo, herr]
    · rw [verify_eq_of_exit_ne env d c h hc]; simp [hrun, hinfo, herr]
  · rw [verify_eq_of_spawn env d h]; simp [hrun, hinfo, herr]

theorem cou_update_filters (env : Env) (repo : Repo) (bd : String)
    (hp : env.pathExists (pathJoin bd repo.name) = true) :
    (clone_or_update_repository env repo bd).1.filter isCloneEvt = []
    ∧ (clone_or_update_repository env repo bd).1.filter isFetchEvt
        = [Event.run (GitCmd.fetch (pathJoin bd repo.name))]
    ∧ (clone_or_update_repository env repo bd).1.filter isMergeEvt
        = (if env.runOutcome (GitCmd.fetch (pathJoin bd repo.name)) = RunOutcome.exit 0
           then [Event.run (GitCmd.merge (pathJoin bd repo.name))] else [])
    ∧ (clone_or_update_repository env repo bd).1.filter isFsckEvt = []
    ∧ (clone_or_update_repository env repo bd).1.filter isMakedirsEvt = [] := by
  rcases h1 : env.runOutcome (GitCmd.fetch (pathJoin bd repo.name)) with c | _
  · by_cases hc : c = 0
    · subst hc
      rcases h2 : env.runOutcome (GitCmd.merge (pathJoin bd repo.name)) with c2 | _
      · by_cases hc2 : c2 = 0
        · subst hc2
          rw [cou_update_eq_of_ok_ok env repo bd hp h1 h2]
          simp [isCloneEvt, isFetchEvt, isMergeEvt, isFsckEvt, isMakedirsEvt]
        · rw [cou_update_eq_of_ok_ne env repo bd c2 hp h1 h2 hc2]
          simp [isCloneEvt, isFetchEvt, isMergeEvt, isFsckEvt, isMakedirsEvt]
      · rw [cou_update_eq_of_ok_spawn env repo bd hp h1 h2]
        simp [isCloneEvt, isFetchEvt, isMergeEvt, isFsckEvt, isMakedirsEvt]
    · rw [cou_update_eq_of_ne env repo bd c hp h1 hc]
      simp [isCloneEvt, isFetchEvt, isMergeEvt, isFsckEvt, isMakedirsEvt, h1, hc]
  · rw [cou_update_eq_of_spawn env repo bd hp h1]
    simp [isCloneEvt, isFetchEvt, isMergeEvt, isFsckEvt, isMakedirsEvt, h1]

theorem cou_clone_filters (env : Env) (repo : Repo) (bd : String)
    (hp : env.pathExists (pathJoin bd repo.name) = false) :
    (clone_or_update_repository env repo bd).1.filter isCloneEvt
        = [Event.run (GitCmd.clone (repo_url repo) (pathJoin bd repo.name))]
    ∧ (clone_or_update_repository env repo bd).1.filter isFetchEvt = []
    ∧ (clone_or_update_repository env repo bd).1.filter isMergeEvt = []
    ∧ (env.runOutcome (GitCmd.clone (repo_url repo) (pathJoin bd repo.name))
          ≠ RunOutcome.spawnError →
        (clone_or_update_repository env repo bd).1.filter isFsckEvt
          = [Event.run (GitCmd.fsck (pathJoin bd repo.name))])
    ∧ (clone_or_update_repository env repo bd).1.filter isMakedirsEvt = [] := by
  have hvf := verify_filter_fsck env (pathJoin bd repo.name)
  have hvC : (verify_repository env (pathJoin bd repo.name)).1.filter isCloneEvt = [] :=
    verify_filter_nonfsck env _ _ (fun _ => rfl) (fun _ => rfl) (fun _ => rfl)
  have hvF : (verify_repository env (pathJoin bd repo.name)).1.filter isFetchEvt = [] :=
    verify_filter_nonfsck env _ _ (fun _ => rfl) (fun _ => rfl) (fun _ => rfl)
  have hvM : (verify_repository env (pathJoin bd repo.name)).1.filter isMergeEvt = [] :=
    verify_filter_nonfsck env _ _ (fun _ => rfl) (fun _ => rfl) (fun _ => rfl)
  have hvK : (verify_repository env (pathJoin bd repo.name)).1.filter isMakedirsEvt = [] :=
    verify_filter_nonfsck env _ _ (fun _ => rfl) (fun _ => rfl) (fun _ => rfl)
  rcases h1 : env.runOutcome (GitCmd.clone (repo_url repo) (pathJoin bd repo.name)) with c | _
  · by_cases hc : c = 0
    · subst hc
      rw [cou_clone_eq_of_ok env repo bd hp h1]
      simp [isCloneEvt, isFetchEvt, isMergeEvt, isFsckEvt, isMakedirsEvt,
        hvf, hvC, hvF, hvM, hvK]
    · rw [cou_clone_eq_of_ne env repo bd c hp h1 hc]
      simp [isCloneEvt, isFetchEvt, isMergeEvt, isFsckEvt, isMakedirsEvt,
        hvf, hvC, hvF, hvM, hvK]
  · rw [cou_clone_eq_of_spawn env repo bd hp h1]
    simp [isCloneEvt, isFetchEvt, isMergeEvt, isFsckEvt, isMakedirsEvt, h1]

theorem cou_filter_makedirs (env : Env) (repo : Repo) (bd : String) :
    (clone_or_update_repository env repo bd).1.filter isMakedirsEvt = [] := by
  by_cases hp : env.pathExists (pathJoin bd repo.name) = true
  · exact (cou_update_filters env repo bd hp).2.2.2.2
  · exact (cou_clone_filters env repo bd (Bool.not_eq_true _ ▸ hp)).2.2.2.2

theorem cou_run_dir (env : Env) (repo : Repo) (bd : String) (g : GitCmd)
    (hg : Event.run g ∈ (clone_or_update_repository env repo bd).1) :
    g.dir = pathJoin bd repo.name := by
  have hv : ∀ g', Event.run g' ∈ (verify_repository env (pathJoin bd repo.name)).1 →
      g'.dir = pathJoin bd repo.name := by
    intro g' hg'
    rcases h2 : env.runOutcome (GitCmd.fsck (pathJoin bd repo.name)) with c2 | _
    · by_cases hc2 : c2 = 0
      · subst hc2; rw [verify_eq_of_exit_zero env _ h2] at hg'
        simp at hg'; simp [hg', GitCmd.dir]
      · rw [verify_eq_of_exit_ne env _ c2 h2 hc2] at hg'
        simp at hg'; simp [hg', GitCmd.dir]
    · rw [verify_eq_of_spawn env _ h2] at hg'
      simp at hg'; simp [hg', GitCmd.dir]
  by_cases hp : env.pathExists (pathJoin bd repo.name) = true
  · rcases h1 : env.runOutcome (GitCmd.fetch (pathJoin bd repo.name)) with c | _
    · by_cases hc : c = 0
      · subst hc
        rcases h2 : env.runOutcome (GitCmd.merge (pathJoin bd repo.name)) with c2 | _
        · by_cases hc2 : c2 = 0
          · subst hc2
            rw [cou_update_eq_of_ok_ok env repo bd hp h1 h2] at hg
            simp at hg
            rcases hg with hg | hg <;> simp [hg, GitCmd.dir]
          · rw [cou_update_eq_of_ok_ne env repo bd c2 hp h1 h2 hc2] at hg
            simp at hg
            rcases hg with hg | hg <;> simp [hg, GitCmd.dir]
        · rw [cou_update_eq_of_ok_spawn env repo bd hp h1 h2] at hg
          simp at hg
          rcases hg with hg | hg <;> simp [hg, GitCmd.dir]
      · rw [cou_update_eq_of_ne env repo bd c hp h1 hc] at hg
        simp at hg
        simp [hg, GitCmd.dir]
    · rw [cou_update_eq_of_spawn env repo bd hp h1] at hg
      simp at hg
      simp [hg, GitCmd.dir]
  · rw [Bool.not_eq_true] at hp
    rcases h1 : env.runOutcome (GitCmd.clone (repo_url repo) (pathJoin bd repo.name)) with c | _
    · by_cases hc : c = 0
      · subst hc
        rw [cou_clone_eq_of_ok env repo bd hp h1] at hg
        simp at hg
        rcases hg with hg | hg
        · simp [hg, GitCmd.dir]
        · exact hv g hg
      · rw [cou_clone_eq_of_ne env repo bd c hp h1 hc] at hg
        simp at hg
        rcases hg with hg | hg
        · simp [hg, GitCmd.dir]
        · exact hv g hg
    · rw [cou_clone_eq_of_spawn env repo bd hp h1] at hg
      simp at hg
      simp [hg, GitCmd.dir]

theorem display_mem_print (rs : List Repo) :
    ∀ e ∈ display_repositories rs, ∃ s, e = Event.print s := by
  intro e he
  rcases List.mem_cons.mp he with h | h
  · exact ⟨_, h⟩
  · rcases List.mem_map.mp h with ⟨r, _, h⟩
    exact ⟨_, h.symm⟩

theorem display_filter_eq_nil (rs : List Repo) (p : Event → Bool)
    (hp : ∀ s, p (Event.print s) = false) :
    (display_repositories rs).filter p = [] := by
  refine List.filter_eq_nil_iff.mpr ?_
  intro e he
  rcases display_mem_print rs e he with ⟨s, rfl⟩
  simp [hp]

theorem backup_repositories_eq_of_cancel (env : Env) (rl : Int) (repos : List Repo)
    (confirm : String) (h : strLower confirm ≠ "yes") :
    backup_repositories env rl (ListingOutcome.ok repos) confirm
      = (display_repositories (pySortedByUpdatedDesc repos)
          ++ [Event.print promptMsg, Event.print "Backup canceled."],
         PyResult.ok ()) := by
  simp [backup_repositories, get_repositories, h]

theorem backup_repositories_eq_of_yes (env : Env) (rl : Int) (repos : List Repo)
    (confirm : String) (h : strLower confirm = "yes") :
    backup_repositories env rl (ListingOutcome.ok repos) confirm
      = (display_repositories (pySortedByUpdatedDesc repos)
          ++ [Event.print promptMsg]
          ++ (backupLoop env rl (pySortedByUpdatedDesc repos)).1,
         (backupLoop env rl (pySortedByUpdatedDesc repos)).2) := by
  rcases hl : backupLoop env rl (pySortedByUpdatedDesc repos) with ⟨tl, r⟩
  simp [backup_repositories, get_repositories, h, hl]

theorem backupLoop_snd_ok_of_noSpawn (env : Env) (hns : env.noSpawnErr) (rl : Int) :
    ∀ repos : List Repo, (backupLoop env rl repos).2 = PyResult.ok ()
  | [] => rfl
  | r :: rest => by
    rw [backupLoop_cons_of_ok env rl r rest (cou_snd_ok_of_noSpawn env hns r _)]
    exact backupLoop_snd_ok_of_noSpawn env hns rl rest

theorem backupLoop_filter_makedirs_of_noSpawn (env : Env) (hns : env.noSpawnErr) (rl : Int) :
    ∀ repos : List Repo,
      (backupLoop env rl repos).1.filter isMakedirsEvt
        = repos.map (fun r => Event.makedirs (backupDirOf r))
  | [] => rfl
  | r :: rest => by
    rw [backupLoop_cons_of_ok env rl r rest (cou_snd_ok_of_noSpawn env hns r _)]
    have hrest := backupLoop_filter_makedirs_of_noSpawn env hns rl rest
    by_cases hrl : rl > 0 <;>
      simp [List.filter_append, cou_filter_makedirs, hrest, isMakedirsEvt, hrl]

theorem backupLoop_mem_of_mem_sync (env : Env) (hns : env.noSpawnErr) (rl : Int) :
    ∀ repos : List Repo, ∀ r ∈ repos,
      ∀ e ∈ (clone_or_update_repository env r (backupDirOf r)).1,
        e ∈ (backupLoop env rl repos).1 := by
  intro repos
  induction repos with
  | nil => intro r hr; exact absurd hr (List.not_mem_nil r)
  | cons x rest ih =>
    intro r hr e he
    rw [backupLoop_cons_of_ok env rl x rest (cou_snd_ok_of_noSpawn env hns x _)]
    rcases List.mem_cons.mp hr with h | h
    · subst h
      simp [List.mem_append, he]
    · simp [List.mem_append, ih r h e he]

/-! ## Sorting lemmas -/

theorem insertDesc_perm (r : Repo) : ∀ l : List Repo, List.Perm (insertDesc r l) (r :: l)
  | [] => List.Perm.refl _
  | x :: xs => by
    rw [insertDesc]
    by_cases h : r.updated_at < x.updated_at
    · simp only [h, if_true]
      exact ((insertDesc_perm r xs).cons x).trans (List.Perm.swap r x xs)
    · simp [h]

theorem pySorted_perm : ∀ l : List Repo, List.Perm (pySortedByUpdatedDesc l) l
  | [] => List.Perm.refl _
  | r :: rs => by
    rw [pySortedByUpdatedDesc]
    exact (insertDesc_perm r (pySortedByUpdatedDesc rs)).trans ((pySorted_perm rs).cons r)

theorem insertDesc_pairwise (r : Repo) :
    ∀ l : List Repo, l.Pairwise (fun a b => b.updated_at ≤ a.updated_at) →
      (insertDesc r l).Pairwise (fun a b => b.updated_at ≤ a.updated_at)
  | [], _ => List.pairwise_singleton _ r
  | x :: xs, h => by
    rw [List.pairwise_cons] at h
    rw [insertDesc]
    by_cases hlt : r.updated_at < x.updated_at
    · simp only [hlt, if_true]
      rw [List.pairwise_cons]
      refine ⟨?_, insertDesc_pairwise r xs h.2⟩
      intro b hb
      rcases List.mem_cons.mp ((insertDesc_perm r xs).mem_iff.mp hb) with hb | hb
      · subst hb; exact Nat.le_of_lt hlt
      · exact h.1 b hb
    · simp only [hlt, if_false]
      rw [List.pairwise_cons]
      refine ⟨?_, List.pairwise_cons.mpr h⟩
      intro b hb
      rcases List.mem_cons.mp hb with hb | hb
      · subst hb; exact Nat.le_of_not_lt hlt
      · exact Nat.le_trans (h.1 b hb) (Nat.le_of_not_lt hlt)

theorem pySorted_pairwise : ∀ l : List Repo,
    (pySortedByUpdatedDesc l).Pairwise (fun a b => b.updated_at ≤ a.updated_at)
  | [] => List.Pairwise.nil
  | r :: rs => insertDesc_pairwise r _ (pySorted_pairwise rs)

theorem insertDesc_filter_ts (r : Repo) (t : Nat) :
    ∀ l : List Repo,
      (insertDesc r l).filter (fun x => x.updated_at == t)
        = if r.updated_at == t
          then r :: l.filter (fun x => x.updated_at == t)
          else l.filter (fun x => x.updated_at == t)
  | [] => by by_cases h : r.updated_at = t <;> simp [insertDesc, h]
  | x :: xs => by
    rw [insertDesc]
    by_cases hlt : r.updated_at < x.updated_at
    · simp only [hlt, if_true]
      by_cases hr : r.updated_at = t
      · have hx : ¬ x.updated_at = t := by omega
        simp [List.filter_cons, hr, hx, insertDesc_filter_ts r t xs]
      · by_cases hx : x.updated_at = t <;>
          simp [List.filter_cons, hr, hx, insertDesc_filter_ts r t xs]
    · simp only [hlt, if_false]
      by_cases hr : r.updated_at = t <;> simp [List.filter_cons, hr]

theorem pySorted_filter_ts (t : Nat) :
    ∀ l : List Repo,
      (pySortedByUpdatedDesc l).filter (fun x => x.updated_at == t)
        = l.filter (fun x => x.updated_at == t)
  | [] => rfl
  | r :: rs => by
    rw [pySortedByUpdatedDesc, insertDesc_filter_ts r t (pySortedByUpdatedDesc rs),
      pySorted_filter_ts t rs]
    by_cases hr : r.updated_at = t <;> simp [List.filter_cons, hr]

/-! ## Claims -/

/-- C1, counterexample.  A repository processed in the Running state whose
target directory already exists (update path): sync runs fetch, yet no
`git fsck` invocation ever appears in the whole run's trace — the update
path returns before the verification step, so verify is *not* invoked for
every processed repository. -/
theorem c1_counterexample :
    (backup_repositories envExistsOk 0 (ListingOutcome.ok [repoAlpha]) "yes").1.filter
        isFsckEvt = []
    ∧ (backup_repositories envExistsOk 0 (ListingOutcome.ok [repoAlpha]) "yes").1.filter
        isFetchEvt = [Event.run (GitCmd.fetch "private_repos/alpha")]
    ∧ (backup_repositories envExistsOk 0 (ListingOutcome.ok [repoAlpha]) "yes").2
        = PyResult.ok () := by
  decide

/-- C1, amended.  Verification is invoked exactly when the clone path was
taken: on the update path (target directory exists) no `git fsck` is ever
run; on the clone path, provided the clone invocation itself did not raise
a spawn-level error, `git fsck` is invoked on the target directory exactly
once, whether or not the clone reported success. -/
theorem c1_verify_only_on_clone_path (env : Env) (repo : Repo) (backup_dir : String) :
    (env.pathExists (pathJoin backup_dir repo.name) = true →
      (clone_or_update_repository env repo backup_dir).1.filter isFsckEvt = [])
    ∧ (env.pathExists (pathJoin backup_dir repo.name) = false →
        env.runOutcome (GitCmd.clone (repo_url repo) (pathJoin backup_dir repo.name))
          ≠ RunOutcome.spawnError →
      (clone_or_update_repository env repo backup_dir).1.filter isFsckEvt
        = [Event.run (GitCmd.fsck (pathJoin backup_dir repo.name))]) := by
  constructor
  · intro hp
    exact (cou_update_filters env repo backup_dir hp).2.2.2.1
  · intro hp hcl
    exact (cou_clone_filters env repo backup_dir hp).2.2.2.1 hcl

/-- C1, witness for the amended claim at concrete inputs: an existing
target directory yields no fsck; a fresh one (with a failing clone even)
yields exactly one. -/
theorem c1_witness :
    (clone_or_update_repository envExistsOk repoAlpha "private_repos").1.filter
        isFsckEvt = []
    ∧ (clone_or_update_repository envCloneFails repoAlpha "private_repos").1.filter
        isFsckEvt
        = [Event.run (GitCmd.fsck (pathJoin "private_repos" repoAlpha.name))] :=
  ⟨(c1_verify_only_on_clone_path envExistsOk repoAlpha "private_repos").1 rfl,
   (c1_verify_only_on_clone_path envCloneFails repoAlpha "private_repos").2 rfl
     (by decide)⟩

/-- C2, counterexample.  A repository whose target directory exists takes
the update path (fetch is invoked), but when fetch exits non-zero the
merge command is never invoked — so "fetch then merge is invoked" does not
hold unconditionally on the update path. -/
theorem c2_counterexample :
    envFetchFails.pathExists (pathJoin "private_repos" repoAlpha.name) = true
    ∧ (clone_or_update_repository envFetchFails repoAlpha "private_repos").1.filter
        isFetchEvt ≠ []
    ∧ (clone_or_update_repository envFetchFails repoAlpha "private_repos").1.filter
        isMergeEvt = [] := by
  decide

/-- C2, amended.  Sync takes exactly one of two mutually exclusive paths
decided by existence of the target directory: if it does not exist, the
clone command is invoked exactly once and fetch/merge never; if it exists,
the clone command is never invoked, fetch is invoked exactly once, and
merge is invoked (exactly once) precisely when fetch exited zero. -/
theorem c2_paths_mutually_exclusive (env : Env) (repo : Repo) (backup_dir : String) :
    (env.pathExists (pathJoin backup_dir repo.name) = false →
      (clone_or_update_repository env repo backup_dir).1.filter isCloneEvt
          = [Event.run (GitCmd.clone (repo_url repo) (pathJoin backup_dir repo.name))]
      ∧ (clone_or_update_repository env repo backup_dir).1.filter isFetchEvt = []
      ∧ (clone_or_update_repository env repo backup_dir).1.filter isMergeEvt = [])
    ∧ (env.pathExists (pathJoin backup_dir repo.name) = true →
      (clone_or_update_repository env repo backup_dir).1.filter isCloneEvt = []
      ∧ (clone_or_update_repository env repo backup_dir).1.filter isFetchEvt
          = [Event.run (GitCmd.fetch (pathJoin backup_dir repo.name))]
      ∧ (clone_or_update_repository env repo backup_dir).1.filter isMergeEvt
          = (if env.runOutcome (GitCmd.fetch (pathJoin backup_dir repo.name))
                = RunOutcome.exit 0
             then [Event.run (GitCmd.merge (pathJoin backup_dir repo.name))] else [])) := by
  constructor
  · intro hp
    exact ⟨(cou_clone_filters env repo backup_dir hp).1,
      (cou_clone_filters env repo backup_dir hp).2.1,
      (cou_clone_filters env repo backup_dir hp).2.2.1⟩
  · intro hp
    exact ⟨(cou_update_filters env repo backup_dir hp).1,
      (cou_update_filters env repo backup_dir hp).2.1,
      (cou_update_filters env repo backup_dir hp).2.2.1⟩

/-- C2, witness at concrete inputs: fresh directory gives exactly one
clone and no fetch/merge; existing directory with both steps succeeding
gives fetch and merge and no clone. -/
theorem c2_witness :
    ((clone_or_update_repository envAllOk repoBeta "public_repos").1.filter isCloneEvt
        = [Event.run (GitCmd.clone (repo_url repoBeta) (pathJoin "public_repos" repoBeta.name))]
      ∧ (clone_or_update_repository envAllOk repoBeta "public_repos").1.filter isFetchEvt = []
      ∧ (clone_or_update_repository envAllOk repoBeta "public_repos").1.filter isMergeEvt = [])
    ∧ ((clone_or_update_repository envExistsOk repoBeta "public_repos").1.filter isCloneEvt = []
      ∧ (clone_or_update_repository envExistsOk repoBeta "public_repos").1.filter isFetchEvt
          = [Event.run (GitCmd.fetch (pathJoin "public_repos" repoBeta.name))]
      ∧ (clone_or_update_repository envExistsOk repoBeta "public_repos").1.filter isMergeEvt
          = (if envExistsOk.runOutcome (GitCmd.fetch (pathJoin "public_repos" repoBeta.name))
                = RunOutcome.exit 0
             then [Event.run (GitCmd.merge (pathJoin "public_repos" repoBeta.name))] else [])) :=
  ⟨(c2_paths_mutually_exclusive envAllOk repoBeta "public_repos").1 rfl,
   (c2_paths_mutually_exclusive envExistsOk repoBeta "public_repos").2 rfl⟩

/-- C6.  On the clone path the remote URL passed to the clone command is
`repo_url repo`, computed from the descriptor alone: the SSH URL exactly
when the SSH URL string contains the literal marker `"ssh://"`, otherwise
the HTTPS clone URL. -/
theorem c6_url_selection (env : Env) (repo : Repo) (backup_dir : String)
    (hp : env.pathExists (pathJoin backup_dir repo.name) = false) :
    (clone_or_update_repository env repo backup_dir).1.filter isCloneEvt
        = [Event.run (GitCmd.clone (repo_url repo) (pathJoin backup_dir repo.name))]
    ∧ (strIn "ssh://" repo.ssh_url = true → repo_url repo = repo.ssh_url)
    ∧ (strIn "ssh://" repo.ssh_url = false → repo_url repo = repo.clone_url) := by
  refine ⟨(cou_clone_filters env repo backup_dir hp).1, ?_, ?_⟩ <;>
    intro h <;> simp [repo_url, h]

/-- C6, witness: the repository with the `ssh://` marker is cloned from
its SSH URL, the one without it from its HTTPS URL. -/
theorem c6_witness :
    ((clone_or_update_repository envAllOk repoAlpha "private_repos").1.filter isCloneEvt
        = [Event.run (GitCmd.clone (repo_url repoAlpha) (pathJoin "private_repos" repoAlpha.name))]
      ∧ (strIn "ssh://" repoAlpha.ssh_url = true → repo_url repoAlpha = repoAlpha.ssh_url)
      ∧ (strIn "ssh://" repoAlpha.ssh_url = false → repo_url repoAlpha = repoAlpha.clone_url))
    ∧ repo_url repoAlpha = repoAlpha.ssh_url
    ∧ repo_url repoBeta = repoBeta.clone_url :=
  ⟨c6_url_selection envAllOk repoAlpha "private_repos" rfl, by decide, by decide⟩

/-- C10.  On the update path, a non-zero fetch exit skips merge entirely:
the failure is logged and sync returns normally; conversely a merge
invocation in the trace implies the fetch exited zero. -/
theorem c10_merge_only_after_fetch_success (env : Env) (repo : Repo) (backup_dir : String)
    (hp : env.pathExists (pathJoin backup_dir repo.name) = true) :
    (∀ c, c ≠ 0 →
      env.runOutcome (GitCmd.fetch (pathJoin backup_dir repo.name)) = RunOutcome.exit c →
      (clone_or_update_repository env repo backup_dir).1.filter isMergeEvt = []
      ∧ Event.logError ("Failed to update " ++ repo.name ++ " in " ++ backup_dir)
          ∈ (clone_or_update_repository env repo backup_dir).1
      ∧ (clone_or_update_repository env repo backup_dir).2 = Except.ok ())
    ∧ (Event.run (GitCmd.merge (pathJoin backup_dir repo.name))
          ∈ (clone_or_update_repository env repo backup_dir).1 →
        env.runOutcome (GitCmd.fetch (pathJoin backup_dir repo.name)) = RunOutcome.exit 0) := by
  constructor
  · intro c hc h1
    rw [cou_update_eq_of_ne env repo backup_dir c hp h1 hc]
    refine ⟨by simp [isMergeEvt], by simp, rfl⟩
  · intro hm
    by_cases h0 : env.runOutcome (GitCmd.fetch (pathJoin backup_dir repo.name))
        = RunOutcome.exit 0
    · exact h0
    · exfalso
      have hmf : Event.run (GitCmd.merge (pathJoin backup_dir repo.name))
          ∈ (clone_or_update_repository env repo backup_dir).1.filter isMergeEvt :=
        List.mem_filter.mpr ⟨hm, rfl⟩
      rw [(cou_update_filters env repo backup_dir hp).2.2.1] at hmf
      simp [h0] at hmf

/-- C10, witness: with fetch exiting 1 on an existing directory, merge is
absent, the update failure is logged, and sync returns normally. -/
theorem c10_witness :
    (clone_or_update_repository envFetchFails repoAlpha "private_repos").1.filter
        isMergeEvt = []
    ∧ Event.logError ("Failed to update " ++ repoAlpha.name ++ " in " ++ "private_repos")
        ∈ (clone_or_update_repository envFetchFails repoAlpha "private_repos").1
    ∧ (clone_or_update_repository envFetchFails repoAlpha "private_repos").2
        = Except.ok () :=
  (c10_merge_only_after_fetch_success envFetchFails repoAlpha "private_repos" rfl).1
    1 (by decide) rfl

/-- C7, counterexample.  When the invocation of the check tool itself
raises (spawn-level `OSError`), `verify_repository` does not convert the
failure to a boolean: only `CalledProcessError` is caught, so the
exception propagates past its boundary. -/
theorem c7_counterexample :
    (verify_repository envFsckSpawnErr "public_repos/beta").2
      = Except.error PyErr.osError := rfl

/-- C7, amended.  `verify_repository` returns `True` (with a success log
line) exactly on a zero exit of the check tool, returns `False` (with an
error log line) on any non-zero exit, but an error in the invocation
itself (spawn-level `OSError`) is not caught and propagates. -/
theorem c7_verify_behaviour (env : Env) (d : String) :
    (env.runOutcome (GitCmd.fsck d) = RunOutcome.exit 0 →
      (verify_repository env d).2 = Except.ok true
      ∧ Event.logInfo ("Backup verification for " ++ d ++ " successful")
          ∈ (verify_repository env d).1)
    ∧ (∀ c, c ≠ 0 → env.runOutcome (GitCmd.fsck d) = RunOutcome.exit c →
      (verify_repository env d).2 = Except.ok false
      ∧ Event.logError ("Backup verification for " ++ d ++ " failed")
          ∈ (verify_repository env d).1)
    ∧ (env.runOutcome (GitCmd.fsck d) = RunOutcome.spawnError →
      (verify_repository env d).2 = Except.error PyErr.osError) := by
  refine ⟨?_, ?_, ?_⟩
  · intro h
    rw [verify_eq_of_exit_zero env d h]
    exact ⟨rfl, by simp⟩
  · intro c hc h
    rw [verify_eq_of_exit_ne env d c h hc]
    exact ⟨rfl, by simp⟩
  · intro h
    rw [verify_eq_of_spawn env d h]

/-- C7, witness: all three branches at concrete environments. -/
theorem c7_witness :
    ((verify_repository envAllOk "public_repos/beta").2 = Except.ok true
      ∧ Event.logInfo ("Backup verification for " ++ "public_repos/beta" ++ " successful")
          ∈ (verify_repository envAllOk "public_repos/beta").1)
    ∧ ((verify_repository envFsckFails "public_repos/beta").2 = Except.ok false
      ∧ Event.logError ("Backup verification for " ++ "public_repos/beta" ++ " failed")
          ∈ (verify_repository envFsckFails "public_repos/beta").1)
    ∧ (verify_repository envFsckSpawnErr "private_repos/alpha").2
        = Except.error PyErr.osError :=
  ⟨(c7_verify_behaviour envAllOk "public_repos/beta").1 rfl,
   (c7_verify_behaviour envFsckFails "public_repos/beta").2.1 1 (by decide) rfl,
   (c7_verify_behaviour envFsckSpawnErr "private_repos/alpha").2.2 rfl⟩

/-- C3.  Any confirmation answer other than case-insensitive "yes"
cancels the run with no side effects: no directory creation, no
subprocess invocation at all (hence neither sync nor verify), the message
"Backup canceled." is printed, and the function returns normally. -/
theorem c3_decline_no_side_effects (env : Env) (rl : Int) (repos : List Repo)
    (confirm : String) (h : strLower confirm ≠ "yes") :
    (backup_repositories env rl (ListingOutcome.ok repos) confirm).1.filter
        isMakedirsEvt = []
    ∧ (backup_repositories env rl (ListingOutcome.ok repos) confirm).1.filter
        isRunEvt = []
    ∧ Event.print "Backup canceled."
        ∈ (backup_repositories env rl (ListingOutcome.ok repos) confirm).1
    ∧ (backup_repositories env rl (ListingOutcome.ok repos) confirm).2
        = PyResult.ok () := by
  rw [backup_repositories_eq_of_cancel env rl repos confirm h]
  refine ⟨?_, ?_, ?_, rfl⟩
  · simp [List.filter_append,
      display_filter_eq_nil (pySortedByUpdatedDesc repos) isMakedirsEvt (fun _ => rfl),
      isMakedirsEvt]
  · simp [List.filter_append,
      display_filter_eq_nil (pySortedByUpdatedDesc repos) isRunEvt (fun _ => rfl),
      isRunEvt]
  · simp

/-- C3, witness at the spec's example input `"No thanks"`. -/
theorem c3_witness :
    (backup_repositories envAllOk 0 (ListingOutcome.ok [repoAlpha, repoBeta])
        "No thanks").1.filter isMakedirsEvt = []
    ∧ (backup_repositories envAllOk 0 (ListingOutcome.ok [repoAlpha, repoBeta])
        "No thanks").1.filter isRunEvt = []
    ∧ Event.print "Backup canceled."
        ∈ (backup_repositories envAllOk 0 (ListingOutcome.ok [repoAlpha, repoBeta])
            "No thanks").1
    ∧ (backup_repositories envAllOk 0 (ListingOutcome.ok [repoAlpha, repoBeta])
        "No thanks").2 = PyResult.ok () :=
  c3_decline_no_side_effects envAllOk 0 [repoAlpha, repoBeta] "No thanks" (by decide)

/-- C4.  A successful listing returns the repositories sorted by
`updated_at` descending; the result is a permutation of what the service
returned, and for every timestamp the sub-sequence of repositories with
that timestamp is unchanged (stability: ties keep the service's order).
On confirmation the orchestrator displays and processes exactly this
sorted sequence. -/
theorem c4_listing_sorted_desc_stable (repos : List Repo) :
    (get_repositories (ListingOutcome.ok repos)).2
        = PyResult.ok (pySortedByUpdatedDesc repos)
    ∧ (pySortedByUpdatedDesc repos).Pairwise
        (fun a b => b.updated_at ≤ a.updated_at)
    ∧ List.Perm (pySortedByUpdatedDesc repos) repos
    ∧ (∀ t : Nat, (pySortedByUpdatedDesc repos).filter (fun r => r.updated_at == t)
        = repos.filter (fun r => r.updated_at == t))
    ∧ (∀ (env : Env) (rl : Int) (confirm : String), strLower confirm = "yes" →
        (backup_repositories env rl (ListingOutcome.ok repos) confirm).1
          = display_repositories (pySortedByUpdatedDesc repos)
            ++ [Event.print promptMsg]
            ++ (backupLoop env rl (pySortedByUpdatedDesc repos)).1) := by
  refine ⟨rfl, pySorted_pairwise repos, pySorted_perm repos,
    fun t => pySorted_filter_ts t repos, ?_⟩
  intro env rl confirm h
  rw [backup_repositories_eq_of_yes env rl repos confirm h]

/-- C4, witness: the spec's example — `beta` (older) listed by the service
before `alpha` (newer) comes back as `[alpha, beta]`, and that is the
sequence displayed and processed on confirmation "yes". -/
theorem c4_witness :
    pySortedByUpdatedDesc [repoBeta, repoAlpha] = [repoAlpha, repoBeta]
    ∧ (backup_repositories envAllOk 0 (ListingOutcome.ok [repoBeta, repoAlpha]) "yes").1
        = display_repositories (pySortedByUpdatedDesc [repoBeta, repoAlpha])
          ++ [Event.print promptMsg]
          ++ (backupLoop envAllOk 0 (pySortedByUpdatedDesc [repoBeta, repoAlpha])).1 :=
  ⟨by decide,
   (c4_listing_sorted_desc_stable [repoBeta, repoAlpha]).2.2.2.2 envAllOk 0 "yes"
     (by decide)⟩

/-- C5, counterexample.  A verification failure of the invocation-error
kind (the check tool cannot be spawned) for the first repository is not
caught and not logged: the run aborts with an uncaught `OSError` — the
explicit trace contains no error log record and no event for the second
repository, which is never processed. -/
theorem c5_counterexample :
    backupLoop envFsckSpawnErr 0 [repoAlpha, repoBeta]
      = ([Event.makedirs "private_repos",
          Event.logInfo "Cloning alpha to private_repos",
          Event.run (GitCmd.clone "ssh://git@github.com/u/alpha.git"
            "private_repos/alpha"),
          Event.logInfo "Successfully cloned alpha to private_repos",
          Event.run (GitCmd.fsck "private_repos/alpha")],
         PyResult.exn PyErr.osError) := by
  decide

/-- C5, amended.  Per-repository failures that surface as non-zero exits
of the invoked tool (`CalledProcessError`: update/fetch failure, clone
failure, verification check failure) are logged and do not abort the run:
in an environment free of spawn-level errors the loop returns normally,
processes every repository in order, and each such failure leaves an
error log record in that repository's sync trace.  But a verification
invocation error (spawn-level `OSError` from the fsck call) is not
caught: sync propagates it, and the loop aborts at that repository with
an uncaught exception, leaving the remaining repositories unprocessed. -/
theorem c5_failure_handling (env : Env) (rl : Int) :
    (env.noSpawnErr → ∀ repos : List Repo,
      (backupLoop env rl repos).2 = PyResult.ok ()
      ∧ (backupLoop env rl repos).1.filter isMakedirsEvt
          = repos.map (fun r => Event.makedirs (backupDirOf r))
      ∧ (∀ r ∈ repos, ∀ e ∈ (clone_or_update_repository env r (backupDirOf r)).1,
          e ∈ (backupLoop env rl repos).1))
    ∧ (∀ (repo : Repo) (bd : String) (c : Nat), c ≠ 0 →
        (env.pathExists (pathJoin bd repo.name) = true →
          env.runOutcome (GitCmd.fetch (pathJoin bd repo.name)) = RunOutcome.exit c →
          Event.logError ("Failed to update " ++ repo.name ++ " in " ++ bd)
            ∈ (clone_or_update_repository env repo bd).1)
        ∧ (env.pathExists (pathJoin bd repo.name) = false →
          env.runOutcome (GitCmd.clone (repo_url repo) (pathJoin bd repo.name))
              = RunOutcome.exit c →
          Event.logError ("Failed to clone " ++ repo.name ++ " to " ++ bd)
            ∈ (clone_or_update_repository env repo bd).1)
        ∧ (env.pathExists (pathJoin bd repo.name) = false →
          env.runOutcome (GitCmd.clone (repo_url repo) (pathJoin bd repo.name))
              ≠ RunOutcome.spawnError →
          env.runOutcome (GitCmd.fsck (pathJoin bd repo.name)) = RunOutcome.exit c →
          Event.logError ("Backup verification for " ++ pathJoin bd repo.name ++ " failed")
            ∈ (clone_or_update_repository env repo bd).1))
    ∧ (∀ (repo : Repo) (bd : String) (c0 : Nat),
        env.pathExists (pathJoin bd repo.name) = false →
        env.runOutcome (GitCmd.clone (repo_url repo) (pathJoin bd repo.name))
            = RunOutcome.exit c0 →
        env.runOutcome (GitCmd.fsck (pathJoin bd repo.name)) = RunOutcome.spawnError →
        (clone_or_update_repository env repo bd).2 = Except.error PyErr.osError)
    ∧ (∀ (repo : Repo) (rest : List Repo) (e : PyErr),
        (clone_or_update_repository env repo (backupDirOf repo)).2 = Except.error e →
        backupLoop env rl (repo :: rest)
          = (Event.makedirs (backupDirOf repo)
              :: (clone_or_update_repository env repo (backupDirOf repo)).1,
             PyResult.exn e)) := by
  refine ⟨?_, ?_, ?_, ?_⟩
  · intro hns repos
    exact ⟨backupLoop_snd_ok_of_noSpawn env hns rl repos,
      backupLoop_filter_makedirs_of_noSpawn env hns rl repos,
      backupLoop_mem_of_mem_sync env hns rl repos⟩
  · intro repo bd c hc
    refine ⟨?_, ?_, ?_⟩
    · intro hp h1
      rw [cou_update_eq_of_ne env repo bd c hp h1 hc]
      simp
    · intro hp h1
      rw [cou_clone_eq_of_ne env repo bd c hp h1 hc]
      simp
    · intro hp hcl h2
      have hver := verify_eq_of_exit_ne env (pathJoin bd repo.name) c h2 hc
      rcases h1 : env.runOutcome (GitCmd.clone (repo_url repo) (pathJoin bd repo.name))
        with c0 | _
      · by_cases hc0 : c0 = 0
        · subst hc0
          rw [cou_clone_eq_of_ok env repo bd hp h1, hver]
          simp
        · rw [cou_clone_eq_of_ne env repo bd c0 hp h1 hc0, hver]
          simp
      · exact absurd h1 hcl
  · intro repo bd c0 hp h1 h2
    have hver := verify_eq_of_spawn env (pathJoin bd repo.name) h2
    by_cases hc0 : c0 = 0
    · subst hc0
      rw [cou_clone_eq_of_ok env repo bd hp h1, hver]
    · rw [cou_clone_eq_of_ne env repo bd c0 hp h1 hc0, hver]
  · intro repo rest e h
    exact backupLoop_cons_of_err env rl repo rest e h

/-- C5, witness: with every clone failing (non-zero exit), both
repositories are still processed in order and the clone failures are
logged; with the fsck spawn failing instead, sync propagates the
`OSError` and the loop aborts after the first repository. -/
theorem c5_witness :
    (backupLoop envCloneFails 0 [repoAlpha, repoBeta]).2 = PyResult.ok ()
    ∧ (backupLoop envCloneFails 0 [repoAlpha, repoBeta]).1.filter isMakedirsEvt
        = [Event.makedirs "private_repos", Event.makedirs "public_repos"]
    ∧ Event.logError ("Failed to clone " ++ repoAlpha.name ++ " to " ++ "private_repos")
        ∈ (clone_or_update_repository envCloneFails repoAlpha "private_repos").1
    ∧ (clone_or_update_repository envFsckSpawnErr repoAlpha (backupDirOf repoAlpha)).2
        = Except.error PyErr.osError
    ∧ backupLoop envFsckSpawnErr 0 [repoAlpha, repoBeta]
        = (Event.makedirs (backupDirOf repoAlpha)
            :: (clone_or_update_repository envFsckSpawnErr repoAlpha
                (backupDirOf repoAlpha)).1,
           PyResult.exn PyErr.osError) :=
  ⟨((c5_failure_handling envCloneFails 0).1
      (fun cmd h => by cases cmd <;> exact RunOutcome.noConfusion h)
      [repoAlpha, repoBeta]).1,
   (((c5_failure_handling envCloneFails 0).1
      (fun cmd h => by cases cmd <;> exact RunOutcome.noConfusion h)
      [repoAlpha, repoBeta]).2.1).trans (by decide),
   ((c5_failure_handling envCloneFails 0).2.1 repoAlpha "private_repos" 1
      (by decide)).2.1 rfl rfl,
   (c5_failure_handling envFsckSpawnErr 0).2.2.1 repoAlpha (backupDirOf repoAlpha) 0
      rfl rfl rfl,
   (c5_failure_handling envFsckSpawnErr 0).2.2.2 repoAlpha [repoBeta] PyErr.osError
      ((c5_failure_handling envFsckSpawnErr 0).2.2.1 repoAlpha (backupDirOf repoAlpha) 0
        rfl rfl rfl)⟩

/-- C8.  With the token argument missing (fewer than two argv entries) the
process prints the usage message and exits with code 1; with a token
present, a listing failure — network (`RequestException`, caught and
`sys.exit(1)`) or API/authentication (`GithubException`, whose broken
handler clause raises an uncaught `AttributeError`, terminating the
interpreter with status 1) — ends the process with exit code 1 and no
repository processed (no subprocess invocation, no directory created). -/
theorem c8_fatal_startup_and_listing_errors :
    (∀ (env : Env) (argv : List String) (listing : ListingOutcome) (confirm : String),
      argv.length < 2 →
      main_model env argv listing confirm = ([Event.print usageMsg], PyResult.exit 1))
    ∧ (∀ (env : Env) (prog token confirm : String),
      exitCodeOf (main_model env [prog, token]
          ListingOutcome.requestException confirm).2 = 1
      ∧ (main_model env [prog, token]
          ListingOutcome.requestException confirm).1.filter isRunEvt = []
      ∧ (main_model env [prog, token]
          ListingOutcome.requestException confirm).1.filter isMakedirsEvt = []
      ∧ exitCodeOf (main_model env [prog, token]
          ListingOutcome.githubException confirm).2 = 1
      ∧ (main_model env [prog, token]
          ListingOutcome.githubException confirm).1.filter isRunEvt = []
      ∧ (main_model env [prog, token]
          ListingOutcome.githubException confirm).1.filter isMakedirsEvt = []) := by
  constructor
  · intro env argv listing confirm h
    simp [main_model, h]
  · intro env prog token confirm
    refine ⟨?_, ?_, ?_, ?_, ?_, ?_⟩ <;>
      simp [main_model, backup_repositories, get_repositories, exitCodeOf,
        isRunEvt, isMakedirsEvt]

/-- C8, witness: invoked with no token argument, the model prints usage
and exits 1. -/
theorem c8_witness :
    main_model envAllOk ["backup_github_repos.py"] (ListingOutcome.ok []) "yes"
      = ([Event.print usageMsg], PyResult.exit 1) :=
  c8_fatal_startup_and_listing_errors.1 envAllOk ["backup_github_repos.py"]
    (ListingOutcome.ok []) "yes" (by decide)

/-- C9, counterexample.  A confirmed run over a single public repository
creates only `public_repos/` — the layout does not consist of both
top-level directories, contradicting the claim for this run. -/
theorem c9_counterexample :
    (backup_repositories envAllOk 0 (ListingOutcome.ok [repoBeta]) "yes").1.filter
        isMakedirsEvt = [Event.makedirs "public_repos"] := by
  decide

/-- C9, amended.  In a confirmed run (no spawn-level errors), the
directories created are exactly the category directories of the processed
repositories, in order — `private_repos` for a private repository,
`public_repos` otherwise (so both top-level directories appear exactly
when both categories occur) — and every subprocess a sync issues operates
on the target directory `<category-dir>/<name>`. -/
theorem c9_layout (env : Env) (hns : env.noSpawnErr) (rl : Int) (repos : List Repo) :
    (backupLoop env rl repos).1.filter isMakedirsEvt
        = repos.map (fun r => Event.makedirs
            (if r.private = false then "public_repos" else "private_repos"))
    ∧ (∀ (repo : Repo) (g : GitCmd),
        Event.run g ∈ (clone_or_update_repository env repo (backupDirOf repo)).1 →
        GitCmd.dir g = pathJoin (backupDirOf repo) repo.name)
    ∧ (∀ repo : Repo,
        backupDirOf repo = if repo.private = false then "public_repos" else "private_repos") := by
  refine ⟨?_, fun repo g hg => cou_run_dir env repo (backupDirOf repo) g hg,
    fun repo => rfl⟩
  have h := backupLoop_filter_makedirs_of_noSpawn env hns rl repos
  simpa [backupDirOf] using h

/-- C9, witness: one private and one public repository yield exactly
`private_repos/` then `public_repos/`. -/
theorem c9_witness :
    (backupLoop envAllOk 0 [repoAlpha, repoBeta]).1.filter isMakedirsEvt
      = [Event.makedirs "private_repos", Event.makedirs "public_repos"] :=
  ((c9_layout envAllOk (fun _ h => RunOutcome.noConfusion h) 0
      [repoAlpha, repoBeta]).1).trans (by decide)
